import Mathlib

/-!
Verification of the deno-build repository's build orchestrator and watch loop.

The embedding below is a shallow model of:
  - `src/build.ts`        : `build`, `watchAndRebuild`
  - `src/esbuild-bundler.ts` : `buildWithEsbuild`, `minifyCode`
  - `src/utils.ts`        : `findImportMap`, `typeCheck`, `BuildOptions`

External collaborators (the file system, the `deno check` subprocess, the
`@deno/emit` bundle engine, the esbuild engine) are modelled as oracle
functions packaged in an `Env` record.  Side effects (directory creation,
file writes, bundler invocations, the explicit `esbuild.stop()` shutdown)
are tracked in an explicit `Effects` record returned next to the result.
-/

namespace DenoBuild

/-- Model of `resolve` from `@std/path` for an absolute base and a relative
segment: joins with a single separator.  The sources only ever resolve
relative segments against `Deno.cwd()` or an already-resolved directory. -/
def resolvePath (base seg : String) : String := base ++ "/" ++ seg

/-- Embedding of the `BuildOptions` interface from `src/utils.ts`.  The
optional `skipWrite` field (absent means `undefined`, which is falsy in the
source) is modelled as a `Bool`. -/
structure BuildOptions where
  root : String
  entry : String
  outDir : String
  outFile : String
  watchDirs : List String
  strict : Bool
  useEsbuild : Bool
  minify : Bool
  skipWrite : Bool
deriving Repr, DecidableEq

/-- Oracles for the external collaborators reached from the orchestrator.
`fsExists` models `exists` from `@std/fs`; `typeCheckOk` models the success
flag of the `deno check` subprocess; `emitBundle` models the `@deno/emit`
`bundle` call (`none` = it threw, `some code` = it produced `result.code`);
`esbuildRun` models `esbuild.build` (`none` = it threw, `some content` = it
succeeded and wrote `content` to the configured outfile); `minifyRun` models
`esbuild.transform` with `minify: true`. -/
structure Env where
  cwd : String
  fsExists : String → Bool
  typeCheckOk : String → Bool
  emitBundle : String → Option String → Option String
  esbuildRun : String → Option String → Bool → Option String
  minifyRun : String → Option String

/-- Record of one bundler-backend invocation, with the arguments the
orchestrator passed down. -/
inductive BundlerCall where
  | emitCall (entry : String) (importMap : Option String)
  | esbuildCall (entry : String) (configPath : Option String) (minify : Bool)
deriving Repr, DecidableEq

/-- Observable side effects of one `build` (or backend) call: directories
created with `Deno.mkdir`, files written (path and content) either with
`Deno.writeTextFile` or by esbuild's own outfile write, `deno check`
invocations, bundler-backend invocations, and the number of times
`esbuild.stop()` ran. -/
structure Effects where
  mkdirs : List String := []
  writes : List (String × String) := []
  typeChecks : List String := []
  bundlerCalls : List BundlerCall := []
  esbuildStops : Nat := 0
deriving Repr, DecidableEq

/-- Embedding of `typeCheck` from `src/utils.ts`: spawn `deno check
entryPath` and return its success flag. -/
def typeCheck (env : Env) (entryPath : String) : Bool :=
  env.typeCheckOk entryPath

/-- The three candidate file names probed by `findImportMap`, in source
order. -/
def importMapCandidates : List String := ["deno.json", "deno.jsonc", "import_map.json"]

/-- Loop body of `findImportMap` from `src/utils.ts`: resolve each candidate
against the working directory and return the first that exists. -/
def findImportMapAux (env : Env) : List String → Option String
  | [] => none
  | c :: rest =>
    let path := resolvePath env.cwd c
    if env.fsExists path then some path else findImportMapAux env rest

/-- Embedding of `findImportMap` from `src/utils.ts`. -/
def findImportMap (env : Env) : Option String :=
  findImportMapAux env importMapCandidates

/-- Result of `buildWithEsbuild`: the TypeScript function's return type is
`Promise<void>`, so the success case carries no code. -/
inductive EsbuildOutcome where
  | ok
  | threw (msg : String)
deriving Repr, DecidableEq

/-- Embedding of `buildWithEsbuild` from `src/esbuild-bundler.ts`: run
`esbuild.build` with the deno plugins, the entry point, and the outfile.
On success esbuild writes the bundle to the outfile itself and the function
then runs `esbuild.stop()`; when `esbuild.build` throws, the rejection
propagates and the `esbuild.stop()` line is never reached.  The function's
options interface has no skip-write field and it returns no code. -/
def buildWithEsbuild (env : Env) (entryPath outPath : String)
    (importMapPath : Option String) (minify : Bool) : EsbuildOutcome × Effects :=
  match env.esbuildRun entryPath importMapPath minify with
  | none =>
    (.threw "esbuild build failed",
     { bundlerCalls := [.esbuildCall entryPath importMapPath minify] })
  | some content =>
    (.ok,
     { bundlerCalls := [.esbuildCall entryPath importMapPath minify],
       writes := [(outPath, content)],
       esbuildStops := 1 })

/-- Embedding of `minifyCode` from `src/esbuild-bundler.ts`: run
`esbuild.transform` with minification; on success run `esbuild.stop()` and
return the minified code, on rejection propagate without reaching the stop
line. -/
def minifyCode (env : Env) (code : String) : Option String × Effects :=
  match env.minifyRun code with
  | none => (none, {})
  | some m => (some m, { esbuildStops := 1 })

/-- Outcome of a `build` call.  `procExit n` models `Deno.exit(n)` (the
whole process terminates; nothing is returned or thrown to the caller),
`threw msg` models a rejected promise observable by the caller, and
`ok code` models a resolved promise; the payload is `none` when the
JavaScript value returned is `undefined` (the esbuild branch assigns the
`void` result of `buildWithEsbuild` to `code`). -/
inductive BuildResult where
  | procExit (code : Nat)
  | threw (msg : String)
  | ok (code : Option String)
deriving Repr, DecidableEq

/-- Resolved entry path, `resolve(Deno.cwd(), root, entry)`. -/
def entryPathOf (env : Env) (o : BuildOptions) : String :=
  resolvePath (resolvePath env.cwd o.root) o.entry

/-- Resolved output directory, `resolve(Deno.cwd(), outDir)`. -/
def outDirPathOf (env : Env) (o : BuildOptions) : String :=
  resolvePath env.cwd o.outDir

/-- Resolved output file path, `resolve(outDirPath, outFile)`. -/
def outPathOf (env : Env) (o : BuildOptions) : String :=
  resolvePath (outDirPathOf env o) o.outFile

/-- Embedding of `build` from `src/build.ts`.  Sequence: resolve paths;
`Deno.exit(1)` when the entry does not exist; optional strict type check
(throws "Type checking failed"); import-map discovery; then either the
esbuild backend (mkdir first unless `skipWrite`, then `buildWithEsbuild`,
whose `void` result leaves the returned code `undefined`) or the
`@deno/emit` backend (bundle, optional `minifyCode`, then mkdir and write
unless `skipWrite`).  Errors inside the try block are logged and
re-thrown, so they propagate unchanged. -/
def build (env : Env) (o : BuildOptions) : BuildResult × Effects :=
  let entryPath := entryPathOf env o
  let outDirPath := outDirPathOf env o
  let outPath := outPathOf env o
  if !env.fsExists entryPath then
    (.procExit 1, {})
  else
    let tc : List String := if o.strict then [entryPath] else []
    if o.strict && !typeCheck env entryPath then
      (.threw "Type checking failed", { typeChecks := tc })
    else
      let importMapPath := findImportMap env
      if o.useEsbuild then
        let mk : List String := if !o.skipWrite then [outDirPath] else []
        let res := buildWithEsbuild env entryPath outPath importMapPath o.minify
        let eff : Effects :=
          { typeChecks := tc,
            mkdirs := mk ++ res.2.mkdirs,
            writes := res.2.writes,
            bundlerCalls := res.2.bundlerCalls,
            esbuildStops := res.2.esbuildStops }
        match res.1 with
        | .threw m => (.threw m, eff)
        | .ok => (.ok none, eff)
      else
        match env.emitBundle entryPath importMapPath with
        | none =>
          (.threw "bundle failed",
           { typeChecks := tc, bundlerCalls := [.emitCall entryPath importMapPath] })
        | some raw =>
          match (if o.minify then minifyCode env raw else (some raw, {})) with
          | (none, meff) =>
            (.threw "minify failed",
             { typeChecks := tc,
               bundlerCalls := [.emitCall entryPath importMapPath],
               esbuildStops := meff.esbuildStops })
          | (some code, meff) =>
            if !o.skipWrite then
              (.ok (some code),
               { typeChecks := tc,
                 bundlerCalls := [.emitCall entryPath importMapPath],
                 esbuildStops := meff.esbuildStops,
                 mkdirs := [outDirPath],
                 writes := [(outPath, code)] })
            else
              (.ok (some code),
               { typeChecks := tc,
                 bundlerCalls := [.emitCall entryPath importMapPath],
                 esbuildStops := meff.esbuildStops })

/-! ### Watch loop (`watchAndRebuild` from `src/build.ts`)

The loop consumes file-system events in order; each qualifying event
clears the debounce timeout and arms a new one 100 ms out; when the timer
fires, the callback runs `build` inside try/catch.  Time is modelled as a
natural-number millisecond clock: each event carries its delivery time,
and a pending timer whose deadline has passed fires before the next event
is processed (and at the end of the trace). -/

/-- A `Deno.watchFs` event: a kind string and the affected paths. -/
structure FsEvent where
  kind : String
  paths : List String
deriving Repr, DecidableEq

/-- Suffix test on strings, modelling JavaScript's `String.prototype` ends
with check by comparing character lists. -/
def strEndsWith (s suf : String) : Bool :=
  suf.data.isSuffixOf s.data

/-- The extension filter from the loop body: the path ends in `.ts`,
`.tsx`, `.js` or `.jsx`. -/
def relevantExt (p : String) : Bool :=
  strEndsWith p ".ts" || strEndsWith p ".tsx" || strEndsWith p ".js" ||
    strEndsWith p ".jsx"

/-- An event passes both `continue` guards of the loop body: its kind is
"modify" or "create", and some affected path has a recognized extension. -/
def qualifies (e : FsEvent) : Bool :=
  (e.kind == "modify" || e.kind == "create") && e.paths.any relevantExt

/-- Debounce delay of the watch loop, in milliseconds. -/
def debounceDelay : Nat := 100

/-- State change performed by one loop-body iteration on the debounce
timer, given the timer deadline currently pending (if any) and the event's
delivery time: a qualifying event clears any pending timeout and arms a new
one `debounceDelay` ms out; a non-qualifying event is skipped by
`continue` and leaves the timer untouched. -/
def watchStep (pending : Option Nat) (t : Nat) (e : FsEvent) : Option Nat :=
  if qualifies e then some (t + debounceDelay) else pending

/-- An event together with its delivery time on the millisecond clock. -/
structure TimedEvent where
  time : Nat
  ev : FsEvent
deriving Repr, DecidableEq

/-- Deadlines at which the debounce timer fires (each firing runs one
rebuild callback), for a time-ordered event trace, starting from the given
pending-timer state.  A pending deadline that is due at or before the next
event's delivery time fires first; a pending timer left at the end of the
trace fires too. -/
def firingsAux (pending : Option Nat) : List TimedEvent → List Nat
  | [] =>
    match pending with
    | some d => [d]
    | none => []
  | te :: rest =>
    match pending with
    | some d =>
      if d ≤ te.time then
        d :: firingsAux (watchStep none te.time te.ev) rest
      else
        firingsAux (watchStep pending te.time te.ev) rest
    | none => firingsAux (watchStep none te.time te.ev) rest

/-- Rebuild deadlines produced by the watch loop on an event trace,
starting idle (no pending timer). -/
def rebuildTimes (events : List TimedEvent) : List Nat :=
  firingsAux none events

/-- Outcome of one debounce-timer callback.  `raised` would mean an
exception escaped the callback; `processExit` models `Deno.exit` inside
`build` (not catchable by try/catch). -/
inductive CbOutcome where
  | completed
  | raised (msg : String)
  | processExit (n : Nat)
deriving Repr, DecidableEq

/-- Embedding of the `setTimeout` callback in `watchAndRebuild`: run
`build(options)` inside `try { ... } catch { }`; a rejected build is
swallowed (the error was already logged inside `build`), a resolved build
completes, and `Deno.exit` terminates the process. -/
def timerCallback (env : Env) (o : BuildOptions) : CbOutcome × Effects :=
  match build env o with
  | (.procExit n, eff) => (.processExit n, eff)
  | (.threw _, eff) => (.completed, eff)
  | (.ok _, eff) => (.completed, eff)

/-- Watch-loop run that also executes the rebuild callback at each timer
firing, recording the deadline and the callback outcome.  The loop keeps
consuming events after a completed callback (whether the underlying build
resolved or rejected); it stops only if a callback outcome is not
`completed` (an escaped exception or a process exit would end the
process). -/
def runWatchAux (env : Env) (o : BuildOptions) (pending : Option Nat) :
    List TimedEvent → List (Nat × CbOutcome)
  | [] =>
    match pending with
    | some d => [(d, (timerCallback env o).1)]
    | none => []
  | te :: rest =>
    match pending with
    | some d =>
      if d ≤ te.time then
        let cb := (timerCallback env o).1
        if cb = .completed then
          (d, cb) :: runWatchAux env o (watchStep none te.time te.ev) rest
        else
          [(d, cb)]
      else
        runWatchAux env o (watchStep pending te.time te.ev) rest
    | none => runWatchAux env o (watchStep none te.time te.ev) rest

/-- Full watch-loop run on an event trace, starting idle. -/
def runWatch (env : Env) (o : BuildOptions) (events : List TimedEvent) :
    List (Nat × CbOutcome) :=
  runWatchAux env o none events

/-- A time-ordered, nonempty-or-empty trace of qualifying events in which
each event arrives strictly before the previous event's debounce window
closes (a burst). -/
def isBurst : List TimedEvent → Bool
  | [] => true
  | [te] => qualifies te.ev
  | te1 :: te2 :: rest =>
    qualifies te1.ev && decide (te1.time ≤ te2.time) &&
      decide (te2.time < te1.time + debounceDelay) && isBurst (te2 :: rest)

/-- Delivery time of the last event of a trace (0 for the empty trace). -/
def lastTime : List TimedEvent → Nat
  | [] => 0
  | [te] => te.time
  | _ :: te2 :: rest => lastTime (te2 :: rest)

/-! ### Concrete environments and options used by witnesses -/

/-- Options mirroring the documented defaults of the CLI. -/
def optsBase : BuildOptions :=
  { root := "src", entry := "mod.ts", outDir := "./dist", outFile := "bundle.js",
    watchDirs := [], strict := false, useEsbuild := false, minify := false,
    skipWrite := false }

/-- Environment where every collaborator succeeds. -/
def envAllOk : Env :=
  { cwd := "/w", fsExists := fun _ => true, typeCheckOk := fun _ => true,
    emitBundle := fun _ _ => some "BUNDLED", esbuildRun := fun _ _ _ => some "ESB",
    minifyRun := fun c => some c }

/-- Environment where no file exists at all. -/
def envMissing : Env :=
  { envAllOk with fsExists := fun _ => false }

/-- Environment where the external type checker reports failure. -/
def envTypeErr : Env :=
  { envAllOk with typeCheckOk := fun _ => false }

/-- Environment where the `@deno/emit` bundle call rejects. -/
def envBundleFail : Env :=
  { envAllOk with emitBundle := fun _ _ => none }

/-- Environment where `esbuild.build` rejects. -/
def envEsbFail : Env :=
  { envAllOk with esbuildRun := fun _ _ _ => none }

/-- Environment where only the entry file exists (no import-map candidate). -/
def envNoImportMap : Env :=
  { envAllOk with fsExists := fun p => p == "/w/src/mod.ts" }

/-! ### C1: missing entry point -/

/-- Claim C1: when the resolved entry path does not exist, `build`
terminates the whole process with exit status 1, performs no directory
creation and no file write, and the condition is never surfaced as a
catchable error. -/
theorem build_missing_entry_exits_without_write (env : Env) (o : BuildOptions)
    (h : env.fsExists (entryPathOf env o) = false) :
    (build env o).1 = .procExit 1 ∧
    (∀ m, (build env o).1 ≠ BuildResult.threw m) ∧
    (build env o).2.writes = [] ∧ (build env o).2.mkdirs = [] := by
  simp [build, h]

/-- Witness for C1 at a concrete environment with no files on disk. -/
theorem build_missing_entry_exits_without_write_witness :
    (build envMissing optsBase).1 = .procExit 1 ∧
    (∀ m, (build envMissing optsBase).1 ≠ BuildResult.threw m) ∧
    (build envMissing optsBase).2.writes = [] ∧
    (build envMissing optsBase).2.mkdirs = [] :=
  build_missing_entry_exits_without_write envMissing optsBase (by rfl)

/-! ### C4: strict mode aborts before bundling -/

/-- Claim C4: with `strict` set and a failing type check, `build` throws
"Type checking failed"; no bundler backend is invoked and no directory or
file is created. -/
theorem strict_typecheck_failure_aborts (env : Env) (o : BuildOptions)
    (hentry : env.fsExists (entryPathOf env o) = true)
    (hstrict : o.strict = true)
    (htc : env.typeCheckOk (entryPathOf env o) = false) :
    (build env o).1 = .threw "Type checking failed" ∧
    (build env o).2.bundlerCalls = [] ∧
    (build env o).2.mkdirs = [] ∧ (build env o).2.writes = [] := by
  simp [build, typeCheck, hentry, hstrict, htc]

/-- Witness for C4 at a concrete environment with a failing type check. -/
theorem strict_typecheck_failure_aborts_witness :
    (build envTypeErr { optsBase with strict := true }).1 =
      .threw "Type checking failed" ∧
    (build envTypeErr { optsBase with strict := true }).2.bundlerCalls = [] ∧
    (build envTypeErr { optsBase with strict := true }).2.mkdirs = [] ∧
    (build envTypeErr { optsBase with strict := true }).2.writes = [] :=
  strict_typecheck_failure_aborts envTypeErr { optsBase with strict := true }
    (by rfl) (by rfl) (by rfl)

/-! ### C2: skip-write mode

With the default backend, `skipWrite` suppresses both the `Deno.mkdir`
and the `Deno.writeTextFile` call and the bundled code is returned.  With
the esbuild backend, however, `build` only skips its own `Deno.mkdir`;
`buildWithEsbuild` has no skip-write field, so `esbuild.build` still
writes the bundle to the outfile, and since `buildWithEsbuild` returns
`void`, the orchestrator returns `undefined` instead of the code. -/

/-- Claim C2 (failure at the esbuild backend): with `skipWrite` set, a
valid entry and a succeeding esbuild invocation, the output file is still
written to disk and `build` returns `undefined` rather than the bundled
code; the default backend, by contrast, honors the claim. -/
theorem skipwrite_esbuild_still_writes_and_returns_no_code :
    (build envAllOk { optsBase with useEsbuild := true, skipWrite := true }).1 =
      .ok none ∧
    (build envAllOk { optsBase with useEsbuild := true, skipWrite := true }).2.writes =
      [("/w/./dist/bundle.js", "ESB")] ∧
    (build envAllOk { optsBase with skipWrite := true }).1 = .ok (some "BUNDLED") ∧
    (build envAllOk { optsBase with skipWrite := true }).2.writes = [] ∧
    (build envAllOk { optsBase with skipWrite := true }).2.mkdirs = [] := by
  refine ⟨rfl, rfl, rfl, rfl, rfl⟩

/-! ### C5: returned code -/

/-- Claim C5 (failure at the esbuild backend): on a successful build the
default backend resolves with the bundled code string, but the esbuild
variant's bundle operation yields no code (`buildWithEsbuild` resolves
with `void`), so `build` resolves with `undefined` in that branch. -/
theorem esbuild_variant_returns_undefined :
    (buildWithEsbuild envAllOk "/w/src/mod.ts" "/w/dist/bundle.js" none false).1 =
      .ok ∧
    (build envAllOk { optsBase with useEsbuild := true }).1 = .ok none ∧
    (build envAllOk optsBase).1 = .ok (some "BUNDLED") := by
  refine ⟨rfl, rfl, rfl⟩

/-! ### C3: esbuild shutdown -/

/-- Counterexample to claim C3: when `esbuild.build` rejects,
`buildWithEsbuild` propagates the error and the `esbuild.stop()` line is
never reached — the shutdown step is not executed on the failure path. -/
theorem esbuild_stop_skipped_on_failure :
    (buildWithEsbuild envEsbFail "/w/src/mod.ts" "/w/dist/bundle.js" none false).1 =
      .threw "esbuild build failed" ∧
    (buildWithEsbuild envEsbFail "/w/src/mod.ts" "/w/dist/bundle.js" none
        false).2.esbuildStops = 0 := by
  refine ⟨rfl, rfl⟩

/-- Claim C3 as amended: the `esbuild.stop()` shutdown step runs exactly
once after a successful `esbuild.build` invocation, and does not run when
the invocation rejects (it is sequenced after the call, not in a finally
block). -/
theorem esbuild_stop_runs_iff_success (env : Env) (entryPath outPath : String)
    (importMapPath : Option String) (minify : Bool) :
    (buildWithEsbuild env entryPath outPath importMapPath minify).2.esbuildStops =
      if (env.esbuildRun entryPath importMapPath minify).isSome then 1 else 0 := by
  unfold buildWithEsbuild
  cases h : env.esbuildRun entryPath importMapPath minify <;> simp [h]

/-! ### C9: import-map locator -/

/-- The locator agrees with a first-match search over exactly the three
candidates in source order. -/
theorem findImportMap_eq_find (env : Env) :
    findImportMap env =
      (importMapCandidates.map (resolvePath env.cwd)).find? env.fsExists := by
  cases h1 : env.fsExists (resolvePath env.cwd "deno.json") <;>
    cases h2 : env.fsExists (resolvePath env.cwd "deno.jsonc") <;>
      cases h3 : env.fsExists (resolvePath env.cwd "import_map.json") <;>
        simp [findImportMap, findImportMapAux, importMapCandidates, List.find?,
          h1, h2, h3]

/-- Claim C9: the locator probes exactly `deno.json`, `deno.jsonc`,
`import_map.json` (in that priority order) in the working directory and
returns the first that exists; when none exists it returns none, the build
still succeeds, and the `@deno/emit` bundler is invoked with no import-map
option. -/
theorem import_map_absent_omitted_from_bundler_call (env : Env) (o : BuildOptions)
    (c : String)
    (habsent : ∀ cand ∈ importMapCandidates,
      env.fsExists (resolvePath env.cwd cand) = false)
    (hentry : env.fsExists (entryPathOf env o) = true)
    (hstrict : o.strict = false) (hesb : o.useEsbuild = false)
    (hmin : o.minify = false)
    (hbundle : env.emitBundle (entryPathOf env o) none = some c) :
    findImportMap env =
      (importMapCandidates.map (resolvePath env.cwd)).find? env.fsExists ∧
    findImportMap env = none ∧
    (build env o).2.bundlerCalls = [BundlerCall.emitCall (entryPathOf env o) none] ∧
    (build env o).1 = .ok (some c) := by
  have h1 := habsent "deno.json" (by simp [importMapCandidates])
  have h2 := habsent "deno.jsonc" (by simp [importMapCandidates])
  have h3 := habsent "import_map.json" (by simp [importMapCandidates])
  have hnone : findImportMap env = none := by
    simp [findImportMap, findImportMapAux, importMapCandidates, h1, h2, h3]
  refine ⟨findImportMap_eq_find env, hnone, ?_, ?_⟩ <;>
    cases hsw : o.skipWrite <;>
      simp [build, hentry, hstrict, hesb, hmin, hnone, hbundle, hsw]

/-- Witness for C9: only the entry file exists; the bundler is called with
no import map and the build resolves with the bundled code. -/
theorem import_map_absent_omitted_from_bundler_call_witness :
    findImportMap envNoImportMap =
      (importMapCandidates.map (resolvePath envNoImportMap.cwd)).find?
        envNoImportMap.fsExists ∧
    findImportMap envNoImportMap = none ∧
    (build envNoImportMap optsBase).2.bundlerCalls =
      [BundlerCall.emitCall (entryPathOf envNoImportMap optsBase) none] ∧
    (build envNoImportMap optsBase).1 = .ok (some "BUNDLED") :=
  import_map_absent_omitted_from_bundler_call envNoImportMap optsBase "BUNDLED"
    (by decide) (by rfl) (by rfl) (by rfl) (by rfl) (by rfl)

/-! ### C10: the default backend persists only after success -/

/-- Claim C10: for the `@deno/emit` backend with persistence enabled, the
output directory creation and the file write are sequenced after bundling
and optional minification; when either the bundle call or the minify call
rejects, `build` throws and neither a directory nor a file write is
performed. -/
theorem emit_backend_no_persist_on_failure (env : Env) (o : BuildOptions)
    (hentry : env.fsExists (entryPathOf env o) = true)
    (hstrictok : o.strict = true → env.typeCheckOk (entryPathOf env o) = true)
    (hesb : o.useEsbuild = false) (hskip : o.skipWrite = false)
    (hfail : env.emitBundle (entryPathOf env o) (findImportMap env) = none ∨
      (o.minify = true ∧ ∃ raw,
        env.emitBundle (entryPathOf env o) (findImportMap env) = some raw ∧
        env.minifyRun raw = none)) :
    (∃ m, (build env o).1 = BuildResult.threw m) ∧
    (build env o).2.mkdirs = [] ∧ (build env o).2.writes = [] := by
  have hgate : (o.strict && !typeCheck env (entryPathOf env o)) = false := by
    cases hs : o.strict
    · simp
    · simp [typeCheck, hstrictok hs]
  rcases hfail with hb | ⟨hm, raw, hraw, hmin⟩
  · refine ⟨⟨"bundle failed", ?_⟩, ?_, ?_⟩ <;>
      simp [build, hentry, hgate, hesb, hb]
  · refine ⟨⟨"minify failed", ?_⟩, ?_, ?_⟩ <;>
      simp [build, hentry, hgate, hesb, hm, hraw, minifyCode, hmin]

/-- Witness for C10: the bundle call rejects; `build` throws and performs
no directory creation or file write. -/
theorem emit_backend_no_persist_on_failure_witness :
    (∃ m, (build envBundleFail optsBase).1 = BuildResult.threw m) ∧
    (build envBundleFail optsBase).2.mkdirs = [] ∧
    (build envBundleFail optsBase).2.writes = [] :=
  emit_backend_no_persist_on_failure envBundleFail optsBase (by rfl)
    (fun h => by simp [envBundleFail, envAllOk]) (by rfl) (by rfl) (Or.inl (by rfl))

/-! ### C6 and C7: debounce and event filter -/

/-- The head event of a burst qualifies. -/
theorem isBurst_head_qualifies (te : TimedEvent) (rest : List TimedEvent)
    (h : isBurst (te :: rest) = true) : qualifies te.ev = true := by
  cases rest with
  | nil => simpa [isBurst] using h
  | cons te2 r =>
    simp only [isBurst, Bool.and_eq_true, decide_eq_true_eq] at h
    exact h.1.1.1

/-- A nonempty burst of qualifying events produces exactly one timer
firing, at the last event's time plus the debounce delay. -/
theorem rebuildTimes_burst (l : List TimedEvent) (hb : isBurst l = true)
    (hne : l ≠ []) : rebuildTimes l = [lastTime l + debounceDelay] := by
  induction l with
  | nil => exact absurd rfl hne
  | cons te rest ih =>
    cases rest with
    | nil =>
      have hq : qualifies te.ev = true := by simpa [isBurst] using hb
      simp [rebuildTimes, firingsAux, watchStep, hq, lastTime]
    | cons te2 r =>
      simp only [isBurst, Bool.and_eq_true, decide_eq_true_eq] at hb
      obtain ⟨⟨⟨hq1, hle⟩, hlt⟩, hb2⟩ := hb
      have hq2 : qualifies te2.ev = true := isBurst_head_qualifies te2 r hb2
      have key : rebuildTimes (te :: te2 :: r) = rebuildTimes (te2 :: r) := by
        simp only [rebuildTimes, firingsAux, watchStep, hq1, hq2, if_true]
        rw [if_neg (by omega)]
      rw [key, ih hb2 (by simp)]
      rfl

/-- Claim C6: every qualifying event clears any pending debounce timeout
and arms a fresh one `debounceDelay` (100 ms) out, so a nonempty burst of
qualifying events inside the debounce window collapses into exactly one
rebuild, fired when the last event's window closes. -/
theorem debounce_burst_single_rebuild (pending : Option Nat) (t : Nat)
    (e : FsEvent) (l : List TimedEvent)
    (hq : qualifies e = true) (hb : isBurst l = true) (hne : l ≠ []) :
    watchStep pending t e = some (t + debounceDelay) ∧
    rebuildTimes l = [lastTime l + debounceDelay] :=
  ⟨by simp [watchStep, hq], rebuildTimes_burst l hb hne⟩

/-- Witness for C6: five events within 50 ms; one rebuild at 150 ms. -/
theorem debounce_burst_single_rebuild_witness :
    watchStep (some 42) 7 ⟨"modify", ["/w/src/a.ts"]⟩ =
      some (7 + debounceDelay) ∧
    rebuildTimes
      [⟨0, ⟨"modify", ["/w/src/a.ts"]⟩⟩, ⟨10, ⟨"create", ["/w/src/b.tsx"]⟩⟩,
       ⟨20, ⟨"modify", ["/w/src/c.js"]⟩⟩, ⟨30, ⟨"modify", ["/w/src/d.jsx"]⟩⟩,
       ⟨50, ⟨"modify", ["/w/src/a.ts"]⟩⟩] =
      [lastTime
        [⟨0, ⟨"modify", ["/w/src/a.ts"]⟩⟩, ⟨10, ⟨"create", ["/w/src/b.tsx"]⟩⟩,
         ⟨20, ⟨"modify", ["/w/src/c.js"]⟩⟩, ⟨30, ⟨"modify", ["/w/src/d.jsx"]⟩⟩,
         ⟨50, ⟨"modify", ["/w/src/a.ts"]⟩⟩] + debounceDelay] :=
  debounce_burst_single_rebuild (some 42) 7 ⟨"modify", ["/w/src/a.ts"]⟩ _
    (by decide) (by decide) (by decide)

/-- Claim C7: a non-qualifying event (kind other than modify/create, or no
affected path with a recognized extension) leaves the debounce state
unchanged and triggers zero rebuilds, while a qualifying event on a
recognized extension triggers exactly one rebuild, one debounce delay
after the event. -/
theorem watch_event_filter (pending : Option Nat) (t : Nat) (e : FsEvent) :
    (qualifies e = false →
      watchStep pending t e = pending ∧ rebuildTimes [⟨t, e⟩] = []) ∧
    (qualifies e = true → rebuildTimes [⟨t, e⟩] = [t + debounceDelay]) := by
  constructor
  · intro hq
    exact ⟨by simp [watchStep, hq], by simp [rebuildTimes, firingsAux, watchStep, hq]⟩
  · intro hq
    simp [rebuildTimes, firingsAux, watchStep, hq]

/-- Witness for C7: a modify event on a `.json` file changes nothing and
fires no rebuild; a modify event on a `.ts` file fires one rebuild after
the debounce delay. -/
theorem watch_event_filter_witness :
    watchStep (some 42) 0 ⟨"modify", ["/w/src/a.json"]⟩ = some 42 ∧
    rebuildTimes [⟨0, ⟨"modify", ["/w/src/a.json"]⟩⟩] = [] ∧
    rebuildTimes [⟨0, ⟨"modify", ["/w/src/a.ts"]⟩⟩] = [0 + debounceDelay] :=
  ⟨((watch_event_filter (some 42) 0 ⟨"modify", ["/w/src/a.json"]⟩).1
      (by decide)).1,
   ((watch_event_filter (some 42) 0 ⟨"modify", ["/w/src/a.json"]⟩).1
      (by decide)).2,
   (watch_event_filter none 0 ⟨"modify", ["/w/src/a.ts"]⟩).2 (by decide)⟩

/-! ### C8: the watch loop survives build failures -/

/-- With an existing entry file, `build` never reaches the `Deno.exit`
call: its result is a throw or a resolution, never a process exit. -/
theorem build_no_procExit (env : Env) (o : BuildOptions)
    (hentry : env.fsExists (entryPathOf env o) = true) (n : Nat) :
    (build env o).1 ≠ .procExit n := by
  simp only [build, hentry, Bool.not_true, Bool.false_eq_true, if_false]
  split
  · simp
  · split
    · split <;> simp
    · split
      · simp
      · split
        · simp
        · split <;> simp

/-- With an existing entry file, the debounce-timer callback always
completes: a rejected `build` is swallowed by the catch block. -/
theorem timerCallback_completed (env : Env) (o : BuildOptions)
    (hentry : env.fsExists (entryPathOf env o) = true) :
    (timerCallback env o).1 = .completed := by
  rcases hb : build env o with ⟨r, eff⟩
  cases r with
  | procExit n =>
    have hne := build_no_procExit env o hentry n
    rw [hb] at hne
    simp at hne
  | threw m => simp [timerCallback, hb]
  | ok c => simp [timerCallback, hb]

/-- When every callback completes, the loop run fires exactly the
debounce-scheduled deadlines, each with a completed outcome. -/
theorem runWatchAux_eq_firings (env : Env) (o : BuildOptions)
    (hcb : (timerCallback env o).1 = .completed) (l : List TimedEvent)
    (pending : Option Nat) :
    runWatchAux env o pending l =
      (firingsAux pending l).map (fun d => (d, CbOutcome.completed)) := by
  induction l generalizing pending with
  | nil => cases pending <;> simp [runWatchAux, firingsAux, hcb]
  | cons te rest ih =>
    cases pending with
    | none => simp [runWatchAux, firingsAux, ih]
    | some d =>
      by_cases hle : d ≤ te.time
      · simp [runWatchAux, firingsAux, hle, hcb, ih]
      · simp [runWatchAux, firingsAux, hle, ih]

/-- Claim C8: with an existing entry file, an error thrown by a rebuild is
caught and discarded by the timer callback, and the loop keeps consuming
events: the full run fires every debounce-scheduled rebuild with a
completed outcome, regardless of how the individual builds fare. -/
theorem watch_survives_build_failure (env : Env) (o : BuildOptions)
    (events : List TimedEvent) (m : String)
    (hentry : env.fsExists (entryPathOf env o) = true) :
    ((build env o).1 = BuildResult.threw m →
      (timerCallback env o).1 = .completed) ∧
    runWatch env o events =
      (rebuildTimes events).map (fun d => (d, CbOutcome.completed)) := by
  have hcb := timerCallback_completed env o hentry
  exact ⟨fun _ => hcb, runWatchAux_eq_firings env o hcb events none⟩

/-- Witness for C8: every bundle call rejects, yet both scheduled rebuilds
of a two-event trace fire and the loop completes each callback. -/
theorem watch_survives_build_failure_witness :
    ((build envBundleFail optsBase).1 = BuildResult.threw "bundle failed" →
      (timerCallback envBundleFail optsBase).1 = .completed) ∧
    runWatch envBundleFail optsBase
      [⟨0, ⟨"modify", ["/w/src/a.ts"]⟩⟩, ⟨200, ⟨"modify", ["/w/src/a.ts"]⟩⟩] =
      (rebuildTimes
        [⟨0, ⟨"modify", ["/w/src/a.ts"]⟩⟩, ⟨200, ⟨"modify", ["/w/src/a.ts"]⟩⟩]).map
        (fun d => (d, CbOutcome.completed)) :=
  watch_survives_build_failure envBundleFail optsBase
    [⟨0, ⟨"modify", ["/w/src/a.ts"]⟩⟩, ⟨200, ⟨"modify", ["/w/src/a.ts"]⟩⟩]
    "bundle failed" (by rfl)

end DenoBuild
